import Mathlib

/-!
Shallow embedding of the `simulador` repository core
(`src/server/routes.ts` and `src/server/storage.ts`).

Numbers: the source works on JavaScript numbers with exact decimal
constants and small magnitudes; we model them as `ℚ` (exact rational
arithmetic).  `Math.round` is round-half-up, modelled by `jsRound`.
Ids and timestamps are modelled as `ℤ`.
-/

namespace Simulador

/-- JavaScript `Math.round`: round half toward positive infinity. -/
def jsRound (q : ℚ) : ℤ := ⌊q + 1/2⌋

/-- The five process parameters (`processParametersSchema` fields),
as taken by `calculateSustainabilityMetrics` in `routes.ts`. -/
structure ProcessParameters where
  energyConsumption : ℚ
  wasteGeneration : ℚ
  waterUsage : ℚ
  rawMaterials : ℚ
  productionVolume : ℚ
deriving DecidableEq, Repr

/-- The four derived metrics returned by `calculateSustainabilityMetrics`. -/
structure Metrics where
  carbonFootprint : ℚ
  waterEfficiency : ℚ
  energyEfficiency : ℚ
  sustainabilityScore : ℚ
deriving DecidableEq, Repr

/-- Function `calculateSustainabilityMetrics` from `routes.ts`, line for line:
carbon footprint from fixed emission factors, efficiencies clamped with
`Math.max(0, Math.min(100, ...))` before `Math.round`, and the score as
the rounded average of the two pre-rounding efficiency values. -/
def calculateSustainabilityMetrics (params : ProcessParameters) : Metrics :=
  let carbonFootprint := params.energyConsumption * 0.0005 + params.wasteGeneration * 0.001
  let waterUsagePerUnit := params.waterUsage / params.productionVolume
  let baselineWaterUsage : ℚ := 2.5
  let waterEfficiency := max 0 (min 100 (100 - ((waterUsagePerUnit - baselineWaterUsage) / baselineWaterUsage * 100)))
  let energyPerUnit := params.energyConsumption / params.productionVolume
  let baselineEnergy : ℚ := 0.5
  let energyEfficiency := max 0 (min 100 (100 - ((energyPerUnit - baselineEnergy) / baselineEnergy * 100)))
  let sustainabilityScore := (waterEfficiency + energyEfficiency) / 2
  { carbonFootprint := (jsRound (carbonFootprint * 10) : ℚ) / 10
    waterEfficiency := (jsRound waterEfficiency : ℚ)
    energyEfficiency := (jsRound energyEfficiency : ℚ)
    sustainabilityScore := (jsRound sustainabilityScore : ℚ) }

/-- Payload of `insertScenarioSchema`: a name plus the process parameters. -/
structure InsertScenario extends ProcessParameters where
  name : String
deriving DecidableEq, Repr

/-- A persisted `Scenario` record: insert payload plus computed metrics,
the assigned `id` and the `createdAt` timestamp. -/
structure Scenario extends InsertScenario, Metrics where
  id : ℤ
  createdAt : ℤ
deriving DecidableEq, Repr

/-- State of `MemStorage` from `storage.ts`: the backing `Map` (as a list
in insertion order, keyed by `id`) and the `currentId` counter. -/
structure MemStorage where
  scenarios : List Scenario
  currentId : ℤ
deriving DecidableEq, Repr

/-- JS `Map.set` semantics on the insertion-ordered entry list: replace in
place when the key is present, append otherwise. -/
def mapSet (l : List Scenario) (s : Scenario) : List Scenario :=
  if l.any (fun t => t.id == s.id) then
    l.map (fun t => if t.id == s.id then s else t)
  else
    l ++ [s]

/-- The three hand-entered default scenarios of
`initializeDefaultScenarios` (`storage.ts`), each still waiting for the
id the counter will assign; `t0` is the `new Date()` timestamp taken at
construction. -/
def defaultScenarios (t0 : ℤ) : List (ℤ → Scenario) :=
  [fun id =>
    { name := "Cenário Atual", energyConsumption := 5000, wasteGeneration := 1200,
      waterUsage := 25000, rawMaterials := 8000, productionVolume := 10000,
      carbonFootprint := 2.8, waterEfficiency := 72, energyEfficiency := 85,
      sustainabilityScore := 76, createdAt := t0, id := id },
   fun id =>
    { name := "Cenário Otimizado", energyConsumption := 3500, wasteGeneration := 800,
      waterUsage := 18000, rawMaterials := 7500, productionVolume := 10000,
      carbonFootprint := 2.0, waterEfficiency := 85, energyEfficiency := 92,
      sustainabilityScore := 89, createdAt := t0, id := id },
   fun id =>
    { name := "Cenário Verde", energyConsumption := 2500, wasteGeneration := 600,
      waterUsage := 15000, rawMaterials := 7000, productionVolume := 10000,
      carbonFootprint := 1.4, waterEfficiency := 92, energyEfficiency := 96,
      sustainabilityScore := 94, createdAt := t0, id := id }]

/-- The `MemStorage` constructor: an empty map with `currentId = 1`,
then `initializeDefaultScenarios` adds each default scenario under the
next counter value (`const id = this.currentId++`). -/
def initializeDefaultScenarios (t0 : ℤ) : MemStorage :=
  (defaultScenarios t0).foldl
    (fun st f =>
      { scenarios := mapSet st.scenarios (f st.currentId),
        currentId := st.currentId + 1 })
    { scenarios := [], currentId := 1 }

/-- Method `MemStorage.getScenario`: `this.scenarios.get(id)`. -/
def getScenario (st : MemStorage) (id : ℤ) : Option Scenario :=
  st.scenarios.find? (fun s => s.id == id)

/-- Method `MemStorage.getAllScenarios`: the map values sorted with the stable
comparator `(a, b) => b.createdAt.getTime() - a.createdAt.getTime()`
(descending by `createdAt`); the state is returned unchanged. -/
def getAllScenarios (st : MemStorage) : List Scenario × MemStorage :=
  (st.scenarios.mergeSort (fun a b => decide (b.createdAt ≤ a.createdAt)), st)

/-- Method `MemStorage.createScenario`: assign `id = this.currentId++`, stamp
`createdAt`, store and return the full record.  The metrics argument is
supplied by the caller (the route handler). -/
def createScenario (st : MemStorage) (now : ℤ) (inp : InsertScenario) (m : Metrics) :
    Scenario × MemStorage :=
  let id := st.currentId
  let scenario : Scenario :=
    { toInsertScenario := inp, toMetrics := m, id := id, createdAt := now }
  (scenario, { scenarios := mapSet st.scenarios scenario, currentId := st.currentId + 1 })

/-- Method `MemStorage.deleteScenario`: `this.scenarios.delete(id)` — remove the
entry when present and report whether one was removed. -/
def deleteScenario (st : MemStorage) (id : ℤ) : Bool × MemStorage :=
  if st.scenarios.any (fun s => s.id == id) then
    (true, { st with scenarios := st.scenarios.filter (fun s => s.id != id) })
  else
    (false, st)

/-- Whitespace skipped by JavaScript `parseInt`. -/
def isJsWhitespace (c : Char) : Bool :=
  c == ' ' || c == '\t' || c == '\n' || c == '\r'

/-- Value of a digit under the given radix (10 or 16), as `parseInt`
accepts it; `none` when the character is not a digit of that radix. -/
def digitValue (radix : ℕ) (c : Char) : Option ℕ :=
  if '0' ≤ c ∧ c ≤ '9' then some (c.toNat - '0'.toNat)
  else if radix == 16 ∧ 'a' ≤ c ∧ c ≤ 'f' then some (c.toNat - 'a'.toNat + 10)
  else if radix == 16 ∧ 'A' ≤ c ∧ c ≤ 'F' then some (c.toNat - 'A'.toNat + 10)
  else none

/-- JavaScript function `parseInt(s)` with the radix argument omitted: skip
leading whitespace, read an optional sign, detect a `0x`/`0X` hex
prefix, then consume the longest prefix of digits; `none` models `NaN`
(no digits consumed), which is what `isNaN(id)` tests in `routes.ts`. -/
def jsParseInt (s : String) : Option ℤ :=
  let cs := s.toList.dropWhile isJsWhitespace
  let signed : ℤ × List Char :=
    match cs with
    | '-' :: rest => (-1, rest)
    | '+' :: rest => (1, rest)
    | _ => (1, cs)
  let prefixed : ℕ × List Char :=
    match signed.2 with
    | '0' :: 'x' :: rest => (16, rest)
    | '0' :: 'X' :: rest => (16, rest)
    | _ => (10, signed.2)
  let digits := prefixed.2.takeWhile (fun c => (digitValue prefixed.1 c).isSome)
  if digits.isEmpty then none
  else
    some (signed.1 *
      (digits.foldl (fun acc c => acc * prefixed.1 + ((digitValue prefixed.1 c).getD 0)) 0 : ℕ))

/-- Outcome of a request handler, keeping only what the claims need:
the HTTP status class and the successful body. -/
inductive HttpResponse (α : Type) where
  | ok (body : α)
  | badRequest
  | notFound
deriving DecidableEq, Repr

/-- Handler for `GET /api/scenarios/:id` from `routes.ts`: 400 when `parseInt` gives
`NaN`, 404 when the store has no such id, 200 with the record otherwise.
The store state is threaded through unchanged. -/
def getScenarioRoute (st : MemStorage) (idStr : String) :
    HttpResponse Scenario × MemStorage :=
  match jsParseInt idStr with
  | none => (.badRequest, st)
  | some id =>
    match getScenario st id with
    | none => (.notFound, st)
    | some s => (.ok s, st)

/-- Handler for `DELETE /api/scenarios/:id` from `routes.ts`: 400 when `parseInt`
gives `NaN`, otherwise `storage.deleteScenario` decides between 200 and
404. -/
def deleteScenarioRoute (st : MemStorage) (idStr : String) :
    HttpResponse Unit × MemStorage :=
  match jsParseInt idStr with
  | none => (.badRequest, st)
  | some id =>
    let r := deleteScenario st id
    (if r.1 then .ok () else .notFound, r.2)

/-- Handler for `POST /api/scenarios` from `routes.ts`: compute the metrics with
`calculateSustainabilityMetrics` and hand them to
`storage.createScenario` together with the validated payload. -/
def createScenarioRoute (st : MemStorage) (now : ℤ) (inp : InsertScenario) :
    Scenario × MemStorage :=
  createScenario st now inp (calculateSustainabilityMetrics inp.toProcessParameters)

/-- Store states reachable from construction through the mutating
endpoints (reads leave the state untouched). -/
inductive Reachable : MemStorage → Prop
  | init (t0 : ℤ) : Reachable (initializeDefaultScenarios t0)
  | create {st : MemStorage} (now : ℤ) (inp : InsertScenario) :
      Reachable st → Reachable (createScenarioRoute st now inp).2
  | delete {st : MemStorage} (id : ℤ) :
      Reachable st → Reachable (deleteScenario st id).2

/-- A mutating store operation: a create request (with the clock value
and payload) or a delete request. -/
inductive StoreOp where
  | create (now : ℤ) (inp : InsertScenario)
  | delete (id : ℤ)

/-- Run a sequence of mutating operations, collecting the ids assigned
by the create operations in order. -/
def runOps (st : MemStorage) : List StoreOp → MemStorage × List ℤ
  | [] => (st, [])
  | StoreOp.create now inp :: rest =>
    let r := createScenarioRoute st now inp
    let rec' := runOps r.2 rest
    (rec'.1, r.1.id :: rec'.2)
  | StoreOp.delete id :: rest =>
    runOps (deleteScenario st id).2 rest

/-! ### Helper lemmas -/

lemma jsRound_nonneg {q : ℚ} (h : 0 ≤ q) : 0 ≤ jsRound q := by
  unfold jsRound
  have : (0 : ℚ) ≤ q + 1/2 := by linarith
  exact Int.le_floor.mpr (by exact_mod_cast this)

lemma jsRound_le_hundred {q : ℚ} (h : q ≤ 100) : jsRound q ≤ 100 := by
  unfold jsRound
  have h2 : ⌊q + 1/2⌋ ≤ ⌊(100 : ℚ) + 1/2⌋ := Int.floor_le_floor (by linarith)
  have h3 : ⌊(100 : ℚ) + 1/2⌋ = 100 := by norm_num
  omega

lemma clamp_nonneg (x : ℚ) : 0 ≤ max 0 (min 100 x) := le_max_left 0 _

lemma clamp_le_hundred (x : ℚ) : max 0 (min 100 x) ≤ 100 :=
  max_le (by norm_num) (min_le_left _ _)

lemma jsRound_clamp_of_hundred_le {x : ℚ} (h : 100 ≤ x) :
    jsRound (max 0 (min 100 x)) = 100 := by
  rw [min_eq_left h, max_eq_right (by norm_num : (0 : ℚ) ≤ 100)]
  unfold jsRound
  norm_num

lemma jsRound_clamp_of_nonpos {x : ℚ} (h : x ≤ 0) :
    jsRound (max 0 (min 100 x)) = 0 := by
  rw [min_eq_right (by linarith : x ≤ 100), max_eq_left h]
  unfold jsRound
  norm_num

/-! ### Claim C1 -/

/-- Claim C1 (counterexample): it is NOT the case that for every input
with positive production volume the returned `sustainabilityScore`
equals `round((waterEfficiency + energyEfficiency) / 2)` computed from
the already-rounded efficiency values of the same result.  At
`{energyConsumption := 572, wasteGeneration := 0, waterUsage := 3185,
rawMaterials := 0, productionVolume := 1000}` the pre-rounding
efficiencies are 72.6 and 85.6, so the code returns
`round(79.1) = 79`, while rounding the rounded values 73 and 86 gives
`round(79.5) = 80`. -/
theorem sustainabilityScore_not_from_rounded :
    ¬ ∀ p : ProcessParameters, 0 < p.productionVolume →
      (calculateSustainabilityMetrics p).sustainabilityScore =
        (jsRound (((calculateSustainabilityMetrics p).waterEfficiency +
                   (calculateSustainabilityMetrics p).energyEfficiency) / 2) : ℚ) := by
  intro h
  have h572 := h { energyConsumption := 572, wasteGeneration := 0, waterUsage := 3185,
                   rawMaterials := 0, productionVolume := 1000 } (by norm_num)
  norm_num [calculateSustainabilityMetrics, jsRound] at h572

/-- Claim C1 (amended): for every input with positive production volume
the returned `sustainabilityScore` is the rounding of the average of the
two clamped **pre-rounding** efficiency values (the code averages the
clamped efficiencies before `Math.round` is ever applied). -/
theorem sustainabilityScore_from_preround (p : ProcessParameters)
    (h : 0 < p.productionVolume) :
    (calculateSustainabilityMetrics p).sustainabilityScore =
      (jsRound ((max 0 (min 100 (100 - ((p.waterUsage / p.productionVolume - 2.5) / 2.5 * 100))) +
                 max 0 (min 100 (100 - ((p.energyConsumption / p.productionVolume - 0.5) / 0.5 * 100)))) / 2) : ℚ) :=
  rfl

/-- Witness for the amended C1 at a concrete input. -/
theorem sustainabilityScore_from_preround_witness :
    (calculateSustainabilityMetrics
      { energyConsumption := 572, wasteGeneration := 0, waterUsage := 3185,
        rawMaterials := 0, productionVolume := 1000 }).sustainabilityScore = 79 := by
  have h := sustainabilityScore_from_preround
    { energyConsumption := 572, wasteGeneration := 0, waterUsage := 3185,
      rawMaterials := 0, productionVolume := 1000 } (by norm_num)
  rw [h]
  norm_num [jsRound]

/-! ### Claim C2 -/

/-- Claim C2 (counterexample): `calculateSustainabilityMetrics` applied
to the Scenario A input does NOT return `carbonFootprint = 2.8`,
`waterEfficiency = 72`, `energyEfficiency = 85` (those are the
hand-entered seed values). -/
theorem scenarioA_claimed_metrics_false :
    ¬ ((calculateSustainabilityMetrics
          { energyConsumption := 5000, wasteGeneration := 1200, waterUsage := 25000,
            rawMaterials := 8000, productionVolume := 10000 }).carbonFootprint = 2.8 ∧
       (calculateSustainabilityMetrics
          { energyConsumption := 5000, wasteGeneration := 1200, waterUsage := 25000,
            rawMaterials := 8000, productionVolume := 10000 }).waterEfficiency = 72 ∧
       (calculateSustainabilityMetrics
          { energyConsumption := 5000, wasteGeneration := 1200, waterUsage := 25000,
            rawMaterials := 8000, productionVolume := 10000 }).energyEfficiency = 85) := by
  norm_num [calculateSustainabilityMetrics, jsRound]

/-- Claim C2 (amended): on the Scenario A input the calculation returns
`carbonFootprint = 3.7` (raw value 2.5 + 1.2) and both efficiencies
clamped at 100 (per-unit usage is exactly at both baselines), hence
score 100. -/
theorem scenarioA_metrics_eval :
    calculateSustainabilityMetrics
      { energyConsumption := 5000, wasteGeneration := 1200, waterUsage := 25000,
        rawMaterials := 8000, productionVolume := 10000 } =
      { carbonFootprint := 3.7, waterEfficiency := 100, energyEfficiency := 100,
        sustainabilityScore := 100 } := by
  norm_num [calculateSustainabilityMetrics, jsRound, Metrics.mk.injEq]

/-! ### Claim C3 -/

/-- Claim C3 (counterexample): `calculateSustainabilityMetrics` applied
to the Scenario B input does NOT return `carbonFootprint = 2.0`,
`waterEfficiency = 85`, `energyEfficiency = 92` (those are the
hand-entered seed values of the second default scenario). -/
theorem scenarioB_claimed_metrics_false :
    ¬ ((calculateSustainabilityMetrics
          { energyConsumption := 3500, wasteGeneration := 800, waterUsage := 18000,
            rawMaterials := 7500, productionVolume := 10000 }).carbonFootprint = 2.0 ∧
       (calculateSustainabilityMetrics
          { energyConsumption := 3500, wasteGeneration := 800, waterUsage := 18000,
            rawMaterials := 7500, productionVolume := 10000 }).waterEfficiency = 85 ∧
       (calculateSustainabilityMetrics
          { energyConsumption := 3500, wasteGeneration := 800, waterUsage := 18000,
            rawMaterials := 7500, productionVolume := 10000 }).energyEfficiency = 92) := by
  norm_num [calculateSustainabilityMetrics, jsRound]

/-- Claim C3 (amended): on the Scenario B input the calculation returns
`carbonFootprint = 2.6` (raw value 2.55, rounded half-up) and both
efficiencies clamped at 100 (per-unit usage is below both baselines),
hence score 100. -/
theorem scenarioB_metrics_eval :
    calculateSustainabilityMetrics
      { energyConsumption := 3500, wasteGeneration := 800, waterUsage := 18000,
        rawMaterials := 7500, productionVolume := 10000 } =
      { carbonFootprint := 2.6, waterEfficiency := 100, energyEfficiency := 100,
        sustainabilityScore := 100 } := by
  norm_num [calculateSustainabilityMetrics, jsRound, Metrics.mk.injEq]

/-! ### Claim C6 -/

/-- Claim C6: for every input with positive production volume, both
efficiencies are integers in `[0, 100]`, obtained by clamping to
`[0, 100]` before rounding; per-unit usage at or below the baseline
clamps the efficiency at 100 and per-unit usage at or beyond twice the
baseline clamps it at 0. -/
theorem efficiency_clamped_rounded_bounds (p : ProcessParameters)
    (h : 0 < p.productionVolume) :
    (∃ a : ℤ, (calculateSustainabilityMetrics p).waterEfficiency = (a : ℚ) ∧
      0 ≤ a ∧ a ≤ 100) ∧
    (∃ b : ℤ, (calculateSustainabilityMetrics p).energyEfficiency = (b : ℚ) ∧
      0 ≤ b ∧ b ≤ 100) ∧
    (calculateSustainabilityMetrics p).waterEfficiency =
      (jsRound (max 0 (min 100 (100 - ((p.waterUsage / p.productionVolume - 2.5) / 2.5 * 100)))) : ℚ) ∧
    (calculateSustainabilityMetrics p).energyEfficiency =
      (jsRound (max 0 (min 100 (100 - ((p.energyConsumption / p.productionVolume - 0.5) / 0.5 * 100)))) : ℚ) ∧
    (p.waterUsage / p.productionVolume ≤ 2.5 →
      (calculateSustainabilityMetrics p).waterEfficiency = 100) ∧
    (5 ≤ p.waterUsage / p.productionVolume →
      (calculateSustainabilityMetrics p).waterEfficiency = 0) ∧
    (p.energyConsumption / p.productionVolume ≤ 0.5 →
      (calculateSustainabilityMetrics p).energyEfficiency = 100) ∧
    (1 ≤ p.energyConsumption / p.productionVolume →
      (calculateSustainabilityMetrics p).energyEfficiency = 0) := by
  clear h
  refine ⟨⟨jsRound (max 0 (min 100 (100 - ((p.waterUsage / p.productionVolume - 2.5) / 2.5 * 100)))),
            rfl, ?_, ?_⟩,
          ⟨jsRound (max 0 (min 100 (100 - ((p.energyConsumption / p.productionVolume - 0.5) / 0.5 * 100)))),
            rfl, ?_, ?_⟩, rfl, rfl, ?_, ?_, ?_, ?_⟩
  · exact jsRound_nonneg (clamp_nonneg _)
  · exact jsRound_le_hundred (clamp_le_hundred _)
  · exact jsRound_nonneg (clamp_nonneg _)
  · exact jsRound_le_hundred (clamp_le_hundred _)
  · intro hle
    show (jsRound (max 0 (min 100 (100 - ((p.waterUsage / p.productionVolume - 2.5) / 2.5 * 100)))) : ℚ) = 100
    have hform : (p.waterUsage / p.productionVolume - 2.5) / 2.5 * 100 =
        40 * (p.waterUsage / p.productionVolume) - 100 := by ring
    rw [jsRound_clamp_of_hundred_le (by rw [hform]; linarith)]
    norm_num
  · intro hge
    show (jsRound (max 0 (min 100 (100 - ((p.waterUsage / p.productionVolume - 2.5) / 2.5 * 100)))) : ℚ) = 0
    have hform : (p.waterUsage / p.productionVolume - 2.5) / 2.5 * 100 =
        40 * (p.waterUsage / p.productionVolume) - 100 := by ring
    rw [jsRound_clamp_of_nonpos (by rw [hform]; linarith)]
    norm_num
  · intro hle
    show (jsRound (max 0 (min 100 (100 - ((p.energyConsumption / p.productionVolume - 0.5) / 0.5 * 100)))) : ℚ) = 100
    have hform : (p.energyConsumption / p.productionVolume - 0.5) / 0.5 * 100 =
        200 * (p.energyConsumption / p.productionVolume) - 100 := by ring
    rw [jsRound_clamp_of_hundred_le (by rw [hform]; linarith)]
    norm_num
  · intro hge
    show (jsRound (max 0 (min 100 (100 - ((p.energyConsumption / p.productionVolume - 0.5) / 0.5 * 100)))) : ℚ) = 0
    have hform : (p.energyConsumption / p.productionVolume - 0.5) / 0.5 * 100 =
        200 * (p.energyConsumption / p.productionVolume) - 100 := by ring
    rw [jsRound_clamp_of_nonpos (by rw [hform]; linarith)]
    norm_num

/-- Witness for C6 at the Scenario A input (per-unit water usage is
exactly at the baseline, so water efficiency is clamped at 100). -/
theorem efficiency_clamped_rounded_bounds_witness :
    (calculateSustainabilityMetrics
      { energyConsumption := 5000, wasteGeneration := 1200, waterUsage := 25000,
        rawMaterials := 8000, productionVolume := 10000 }).waterEfficiency = 100 :=
  (efficiency_clamped_rounded_bounds
    { energyConsumption := 5000, wasteGeneration := 1200, waterUsage := 25000,
      rawMaterials := 8000, productionVolume := 10000 } (by norm_num)).2.2.2.2.1
    (by norm_num)

/-! ### Claim C7 -/

/-- Claim C7: `getAllScenarios` leaves the store state unchanged and
returns exactly the stored scenarios (a permutation of the backing
map's values), sorted by `createdAt` descending. -/
theorem getAllScenarios_sorted_desc (st : MemStorage) :
    (getAllScenarios st).2 = st ∧
    (getAllScenarios st).1.Perm st.scenarios ∧
    (getAllScenarios st).1.Pairwise (fun a b => b.createdAt ≤ a.createdAt) := by
  refine ⟨rfl, List.mergeSort_perm st.scenarios _, ?_⟩
  have hs : (st.scenarios.mergeSort
        (fun a b => decide (b.createdAt ≤ a.createdAt))).Pairwise
      (fun a b : Scenario => decide (b.createdAt ≤ a.createdAt) = true) :=
    List.sorted_mergeSort
      (fun a b c hab hbc => by
        simp only [decide_eq_true_eq] at hab hbc ⊢
        exact le_trans hbc hab)
      (fun a b => by
        simp only [Bool.or_eq_true, decide_eq_true_eq]
        exact le_total b.createdAt a.createdAt)
      st.scenarios
  exact hs.imp (fun hab => of_decide_eq_true hab)

/-! ### Claim C8 -/

lemma find?_id_filter_ne (l : List Scenario) (id j : ℤ) (h : j ≠ id) :
    (l.filter (fun s => s.id != id)).find? (fun s => s.id == j) =
      l.find? (fun s => s.id == j) := by
  induction l with
  | nil => rfl
  | cons a l ih =>
    by_cases ha : a.id = id
    · have hcond : (a.id != id) = false := by simp [ha]
      have hpa : (a.id == j) = false := by
        simp only [ha, beq_eq_false_iff_ne, ne_eq]
        exact fun hj => h hj.symm
      simp [List.filter_cons, List.find?_cons, hcond, hpa, ih]
    · have hcond : (a.id != id) = true := by simp [ha]
      rw [List.filter_cons, hcond, if_pos rfl]
      simp only [List.find?_cons]
      cases hpa : (a.id == j) with
      | true => rfl
      | false => exact ih

/-- Claim C8: deleting an id that is present returns `true`, makes
`getScenario` of that id not-found, removes it from `getAllScenarios`,
and leaves every other record unchanged; deleting an absent id returns
`false` and leaves the state exactly unchanged, so a second delete of
the same id also returns `false`. -/
theorem deleteScenario_spec (st : MemStorage) (id : ℤ) :
    ((getScenario st id).isSome = true →
      (deleteScenario st id).1 = true ∧
      getScenario (deleteScenario st id).2 id = none ∧
      (∀ j, j ≠ id → getScenario (deleteScenario st id).2 j = getScenario st j) ∧
      ∀ s ∈ (getAllScenarios (deleteScenario st id).2).1, s.id ≠ id) ∧
    (getScenario st id = none →
      deleteScenario st id = (false, st) ∧
      (deleteScenario (deleteScenario st id).2 id).1 = false) := by
  constructor
  · intro hsome
    have hex : ∃ s, s ∈ st.scenarios ∧ (fun s : Scenario => s.id == id) s := by
      unfold getScenario at hsome
      exact List.find?_isSome.mp hsome
    have hany : st.scenarios.any (fun s => s.id == id) = true :=
      List.any_eq_true.mpr hex
    have hdel : deleteScenario st id =
        (true, { st with scenarios := st.scenarios.filter (fun s => s.id != id) }) := by
      unfold deleteScenario
      rw [hany]
      rfl
    refine ⟨by rw [hdel], ?_, ?_, ?_⟩
    · rw [hdel]
      unfold getScenario
      refine List.find?_eq_none.mpr ?_
      intro s hs
      have := (List.mem_filter.mp hs).2
      simp only [bne_iff_ne, ne_eq] at this
      simp [this]
    · intro j hj
      rw [hdel]
      unfold getScenario
      exact find?_id_filter_ne st.scenarios id j hj
    · intro s hs
      rw [hdel] at hs
      have hmem : s ∈ st.scenarios.filter (fun s => s.id != id) :=
        (List.mergeSort_perm _ _).mem_iff.mp hs
      have := (List.mem_filter.mp hmem).2
      simpa [bne_iff_ne] using this
  · intro hnone
    have hany : st.scenarios.any (fun s => s.id == id) = false := by
      rw [Bool.eq_false_iff]
      intro hany
      rcases List.any_eq_true.mp hany with ⟨s, hsmem, hsid⟩
      have := List.find?_eq_none.mp hnone s hsmem
      exact this hsid
    have hdel : deleteScenario st id = (false, st) := by
      unfold deleteScenario
      rw [hany]
      rfl
    refine ⟨hdel, ?_⟩
    have hsnd : (deleteScenario st id).2 = st := by rw [hdel]
    rw [hsnd]
    unfold deleteScenario
    rw [hany]
    rfl

/-- Witness for C8: deleting seed id 2 from a fresh store succeeds and
hides it, while deleting the absent id 999 reports `false` and keeps
the state. -/
theorem deleteScenario_spec_witness :
    (deleteScenario (initializeDefaultScenarios 0) 2).1 = true ∧
    getScenario (deleteScenario (initializeDefaultScenarios 0) 2).2 2 = none ∧
    getScenario (deleteScenario (initializeDefaultScenarios 0) 2).2 1 =
      getScenario (initializeDefaultScenarios 0) 1 ∧
    deleteScenario (initializeDefaultScenarios 0) 999 =
      (false, initializeDefaultScenarios 0) := by
  have h2 := (deleteScenario_spec (initializeDefaultScenarios 0) 2).1 (by rfl)
  have h999 := (deleteScenario_spec (initializeDefaultScenarios 0) 999).2 (by rfl)
  exact ⟨h2.1, h2.2.1, h2.2.2.1 1 (by decide), h999.1⟩

/-! ### Claim C9 -/

/-- Claim C9 (counterexample): the id `"-5"` is not a valid positive
integer, yet `parseInt` accepts it (`-5`, not `NaN`), so the get and
delete endpoints consult the store and answer 404, not 400. -/
theorem id_routes_negative_id_not_badRequest :
    jsParseInt "-5" = some (-5) ∧
    (getScenarioRoute (initializeDefaultScenarios 0) "-5").1 = HttpResponse.notFound ∧
    (getScenarioRoute (initializeDefaultScenarios 0) "-5").1 ≠ HttpResponse.badRequest ∧
    (deleteScenarioRoute (initializeDefaultScenarios 0) "-5").1 = HttpResponse.notFound ∧
    (deleteScenarioRoute (initializeDefaultScenarios 0) "-5").1 ≠ HttpResponse.badRequest := by
  refine ⟨by decide, by decide, by decide, by decide, by decide⟩

/-- Claim C9 (amended): an id string on which `parseInt` yields `NaN`
(no digits after optional whitespace, sign and hex prefix) is answered
with 400 and the store state is returned untouched; an id string that
parses to some integer with no matching record is answered with 404, on
both the get and the delete endpoint. -/
theorem id_routes_status_spec (st : MemStorage) (idStr : String) :
    (jsParseInt idStr = none →
      getScenarioRoute st idStr = (HttpResponse.badRequest, st) ∧
      deleteScenarioRoute st idStr = (HttpResponse.badRequest, st)) ∧
    (∀ id, jsParseInt idStr = some id → getScenario st id = none →
      (getScenarioRoute st idStr).1 = HttpResponse.notFound ∧
      (deleteScenarioRoute st idStr).1 = HttpResponse.notFound) := by
  constructor
  · intro hnone
    unfold getScenarioRoute deleteScenarioRoute
    rw [hnone]
    exact ⟨rfl, rfl⟩
  · intro id hsome hnotin
    have hany : st.scenarios.any (fun s => s.id == id) = false := by
      rw [Bool.eq_false_iff]
      intro hany
      rcases List.any_eq_true.mp hany with ⟨s, hsmem, hsid⟩
      unfold getScenario at hnotin
      exact List.find?_eq_none.mp hnotin s hsmem hsid
    constructor
    · simp [getScenarioRoute, hsome, hnotin]
    · simp [deleteScenarioRoute, deleteScenario, hsome, hany]

/-- Witness for the amended C9: `"abc"` parses to `NaN` and is answered
400; `"999"` parses but matches no record and is answered 404. -/
theorem id_routes_status_spec_witness :
    getScenarioRoute (initializeDefaultScenarios 0) "abc" =
      (HttpResponse.badRequest, initializeDefaultScenarios 0) ∧
    (getScenarioRoute (initializeDefaultScenarios 0) "999").1 = HttpResponse.notFound ∧
    (deleteScenarioRoute (initializeDefaultScenarios 0) "999").1 = HttpResponse.notFound := by
  have habc := (id_routes_status_spec (initializeDefaultScenarios 0) "abc").1 (by decide)
  have h999 := (id_routes_status_spec (initializeDefaultScenarios 0) "999").2 999
    (by decide) (by decide)
  exact ⟨habc.1, h999.1, h999.2⟩

/-! ### Reachability invariants -/

lemma mem_mapSet {l : List Scenario} {s t : Scenario} (h : t ∈ mapSet l s) :
    t ∈ l ∨ t = s := by
  unfold mapSet at h
  split at h
  · rcases List.mem_map.mp h with ⟨u, hu, hut⟩
    split at hut
    · exact Or.inr hut.symm
    · exact Or.inl (hut ▸ hu)
  · rcases List.mem_append.mp h with h1 | h1
    · exact Or.inl h1
    · exact Or.inr (List.mem_singleton.mp h1)

lemma mem_deleteScenario {st : MemStorage} {id : ℤ} {s : Scenario}
    (h : s ∈ (deleteScenario st id).2.scenarios) : s ∈ st.scenarios := by
  unfold deleteScenario at h
  split at h
  · exact (List.mem_filter.mp h).1
  · exact h

lemma deleteScenario_currentId (st : MemStorage) (id : ℤ) :
    (deleteScenario st id).2.currentId = st.currentId := by
  unfold deleteScenario
  split <;> rfl

lemma initializeDefaultScenarios_currentId (t0 : ℤ) :
    (initializeDefaultScenarios t0).currentId = 4 := rfl

lemma initializeDefaultScenarios_id_lt (t0 : ℤ) :
    ∀ s ∈ (initializeDefaultScenarios t0).scenarios, s.id < 4 := by
  intro s hs
  have hall : ((initializeDefaultScenarios t0).scenarios.all
      (fun s => decide (s.id < 4))) = true := rfl
  exact of_decide_eq_true (List.all_eq_true.mp hall s hs)

/-- In every reachable state, every stored id is below the counter. -/
lemma reachable_id_lt {st : MemStorage} (h : Reachable st) :
    ∀ s ∈ st.scenarios, s.id < st.currentId := by
  induction h with
  | init t0 =>
    intro s hs
    rw [initializeDefaultScenarios_currentId]
    exact initializeDefaultScenarios_id_lt t0 s hs
  | @create st2 now inp _ ih =>
    intro s hs
    have hcur : (createScenarioRoute st2 now inp).2.currentId = st2.currentId + 1 := rfl
    rw [hcur]
    rcases mem_mapSet hs with h1 | h1
    · have := ih s h1
      omega
    · rw [h1]
      show st2.currentId < st2.currentId + 1
      omega
  | delete id _ ih =>
    intro s hs
    rw [deleteScenario_currentId]
    exact ih s (mem_deleteScenario hs)

/-! ### Claim C4 -/

/-- Claim C4 (counterexample): the invariant "every stored scenario's
metrics equal the pure calculation on its own parameters" fails in a
reachable state — the first seed scenario is stored with hand-entered
metrics (2.8, 72, 85, 76) while the calculation on its parameters
yields (3.7, 100, 100, 100). -/
theorem seed_metrics_invariant_false :
    ¬ ∀ st, Reachable st → ∀ s ∈ st.scenarios,
        s.toMetrics = calculateSustainabilityMetrics s.toProcessParameters := by
  intro hclaim
  have hfind : (initializeDefaultScenarios 0).scenarios.find? (fun s => s.id == 1) =
      some { name := "Cenário Atual", energyConsumption := 5000, wasteGeneration := 1200,
             waterUsage := 25000, rawMaterials := 8000, productionVolume := 10000,
             carbonFootprint := 2.8, waterEfficiency := 72, energyEfficiency := 85,
             sustainabilityScore := 76, createdAt := 0, id := 1 } := rfl
  have heq := hclaim _ (Reachable.init 0) _ (List.mem_of_find?_eq_some hfind)
  norm_num [calculateSustainabilityMetrics, jsRound, Metrics.mk.injEq] at heq

/-- Claim C4 (amended): in every reachable state, every scenario that is
not one of the three seeds (i.e. whose id exceeds the seed ids 1–3)
has its metrics fields equal to the pure calculation on its own
parameter fields; the three seed scenarios carry hand-entered metrics
that do not satisfy this. -/
theorem created_scenarios_metrics_invariant {st : MemStorage} (h : Reachable st) :
    ∀ s ∈ st.scenarios, 3 < s.id →
      s.toMetrics = calculateSustainabilityMetrics s.toProcessParameters := by
  induction h with
  | init t0 =>
    intro s hs hgt
    have := initializeDefaultScenarios_id_lt t0 s hs
    omega
  | create now inp _ ih =>
    intro s hs hgt
    rcases mem_mapSet hs with h1 | h1
    · exact ih s h1 hgt
    · rw [h1]
  | delete id _ ih =>
    intro s hs hgt
    exact ih s (mem_deleteScenario hs) hgt

/-- Witness for the amended C4: the scenario created on top of a fresh
store (id 4) satisfies the metrics invariant. -/
theorem created_scenarios_metrics_invariant_witness :
    ((createScenarioRoute (initializeDefaultScenarios 0) 9
        { name := "Novo", energyConsumption := 1000, wasteGeneration := 100,
          waterUsage := 2000, rawMaterials := 500, productionVolume := 1000 }).1).toMetrics =
      calculateSustainabilityMetrics
        ((createScenarioRoute (initializeDefaultScenarios 0) 9
            { name := "Novo", energyConsumption := 1000, wasteGeneration := 100,
              waterUsage := 2000, rawMaterials := 500, productionVolume := 1000 }).1).toProcessParameters := by
  have hfind : ((createScenarioRoute (initializeDefaultScenarios 0) 9
        { name := "Novo", energyConsumption := 1000, wasteGeneration := 100,
          waterUsage := 2000, rawMaterials := 500, productionVolume := 1000 }).2).scenarios.find?
      (fun s => s.id == 4) =
      some ((createScenarioRoute (initializeDefaultScenarios 0) 9
        { name := "Novo", energyConsumption := 1000, wasteGeneration := 100,
          waterUsage := 2000, rawMaterials := 500, productionVolume := 1000 }).1) := rfl
  exact created_scenarios_metrics_invariant
    (Reachable.create 9 _ (Reachable.init 0)) _
    (List.mem_of_find?_eq_some hfind) (by decide)

/-! ### Claim C5 -/

/-- Along any operation sequence, the assigned ids are strictly
increasing and all at least the starting counter value. -/
lemma runOps_assigned_spec (ops : List StoreOp) :
    ∀ st : MemStorage,
      List.Pairwise (· < ·) (runOps st ops).2 ∧
      ∀ i ∈ (runOps st ops).2, st.currentId ≤ i := by
  induction ops with
  | nil =>
    intro st
    exact ⟨List.Pairwise.nil, by intro i hi; cases hi⟩
  | cons op rest ih =>
    intro st
    cases op with
    | create now inp =>
      have hi := ih (createScenarioRoute st now inp).2
      have hcur : (createScenarioRoute st now inp).2.currentId = st.currentId + 1 := rfl
      have hid : (createScenarioRoute st now inp).1.id = st.currentId := rfl
      have hrun : (runOps st (StoreOp.create now inp :: rest)).2 =
          (createScenarioRoute st now inp).1.id ::
            (runOps (createScenarioRoute st now inp).2 rest).2 := rfl
      rw [hrun]
      constructor
      · refine List.Pairwise.cons ?_ hi.1
        intro j hj
        have hj4 := hi.2 j hj
        rw [hcur] at hj4
        rw [hid]
        omega
      · intro i him
        rcases List.mem_cons.mp him with h1 | h1
        · rw [h1, hid]
        · have := hi.2 i h1
          rw [hcur] at this
          omega
    | delete id =>
      have hi := ih (deleteScenario st id).2
      have hcur := deleteScenario_currentId st id
      have hrun : (runOps st (StoreOp.delete id :: rest)).2 =
          (runOps (deleteScenario st id).2 rest).2 := rfl
      rw [hrun]
      refine ⟨hi.1, ?_⟩
      intro i him
      have := hi.2 i him
      rw [hcur] at this
      exact this

/-- Claim C5: starting from a fresh store (whose three seeds were
assigned ids 1, 2, 3 by the shared counter), any sequence of create and
delete operations assigns ids so that the full history of assigned ids
is strictly increasing — each new id exceeds every id ever assigned
before, deleted or not, and no id is ever reused. -/
theorem scenario_ids_strictly_increasing (t0 : ℤ) (ops : List StoreOp) :
    List.Pairwise (· < ·)
      (((initializeDefaultScenarios t0).scenarios.map Scenario.id) ++
        (runOps (initializeDefaultScenarios t0) ops).2) := by
  have hmap : (initializeDefaultScenarios t0).scenarios.map Scenario.id = [1, 2, 3] := rfl
  rw [hmap, List.pairwise_append]
  have h := runOps_assigned_spec ops (initializeDefaultScenarios t0)
  refine ⟨by decide, h.1, ?_⟩
  intro a ha b hb
  have hb4 := h.2 b hb
  rw [initializeDefaultScenarios_currentId] at hb4
  fin_cases ha <;> omega

/-! ### Claim C10 -/

/-- Claim C10: on any reachable store, `createScenario` appends exactly
one record — the returned one, under the freshly assigned id (absent
before the call) — and every previously stored id still resolves to the
very same record afterwards. -/
theorem createScenario_frame {st : MemStorage} (h : Reachable st) (now : ℤ)
    (inp : InsertScenario) (m : Metrics) :
    (createScenario st now inp m).2.scenarios =
      st.scenarios ++ [(createScenario st now inp m).1] ∧
    getScenario st (createScenario st now inp m).1.id = none ∧
    getScenario (createScenario st now inp m).2 (createScenario st now inp m).1.id =
      some (createScenario st now inp m).1 ∧
    ∀ j, j ≠ (createScenario st now inp m).1.id →
      getScenario (createScenario st now inp m).2 j = getScenario st j := by
  have hinv := reachable_id_lt h
  have hid : (createScenario st now inp m).1.id = st.currentId := rfl
  have hany : st.scenarios.any (fun t => t.id == (createScenario st now inp m).1.id) = false := by
    rw [Bool.eq_false_iff]
    intro hany
    rcases List.any_eq_true.mp hany with ⟨s, hsmem, hsid⟩
    have hlt := hinv s hsmem
    rw [hid] at hsid
    have hsid' : s.id = st.currentId := by simpa using hsid
    omega
  have hscen : (createScenario st now inp m).2.scenarios =
      st.scenarios ++ [(createScenario st now inp m).1] := by
    show mapSet st.scenarios (createScenario st now inp m).1 = _
    unfold mapSet
    rw [hany]
    rfl
  have hnone : getScenario st (createScenario st now inp m).1.id = none := by
    unfold getScenario
    refine List.find?_eq_none.mpr ?_
    intro s hs
    have hlt := hinv s hs
    rw [hid]
    simp only [beq_iff_eq]
    omega
  refine ⟨hscen, hnone, ?_, ?_⟩
  · show (createScenario st now inp m).2.scenarios.find? _ = _
    rw [hscen, List.find?_append]
    have h1 : st.scenarios.find?
        (fun s => s.id == (createScenario st now inp m).1.id) = none := hnone
    rw [h1]
    simp [List.find?_cons]
  · intro j hj
    show (createScenario st now inp m).2.scenarios.find? _ = _
    rw [hscen, List.find?_append]
    have h1 : List.find? (fun s => s.id == j) [(createScenario st now inp m).1] = none := by
      have hcj : ((createScenario st now inp m).1.id == j) = false := by
        simp only [beq_eq_false_iff_ne, ne_eq]
        exact fun hcj => hj hcj.symm
      simp [List.find?_cons, hcj]
    rw [h1, Option.or_none]
    rfl

/-- Witness for C10: creating on a fresh store leaves seed 1 resolvable
to the same record as before. -/
theorem createScenario_frame_witness :
    getScenario (createScenario (initializeDefaultScenarios 0) 7
        { name := "Novo", energyConsumption := 1, wasteGeneration := 2,
          waterUsage := 3, rawMaterials := 4, productionVolume := 5 }
        { carbonFootprint := 0, waterEfficiency := 0, energyEfficiency := 0,
          sustainabilityScore := 0 }).2 1 =
      getScenario (initializeDefaultScenarios 0) 1 :=
  (createScenario_frame (Reachable.init 0) 7
    { name := "Novo", energyConsumption := 1, wasteGeneration := 2,
      waterUsage := 3, rawMaterials := 4, productionVolume := 5 }
    { carbonFootprint := 0, waterEfficiency := 0, energyEfficiency := 0,
      sustainabilityScore := 0 }).2.2.2 1 (by decide)

end Simulador
